import Mathlib

set_option autoImplicit false
set_option linter.unusedVariables false

/-!
A shallow embedding of the failure-detection prediction retrieval and
normalization pipeline of TheSpaghettiDetective
(`web/api/viewsets.py`, `PrintViewSet.prediction_json`), together with
proofs of the specified properties.

JSON values are modelled with rationals for numbers; HTTP header maps and
JSON objects are modelled as association lists in insertion order, matching
Python `dict` semantics (unique keys, order-preserving assignment).
-/

namespace SpaghettiDetective

/-- A JSON value, as produced by `r.json()`. -/
inductive Json where
  | null
  | jbool (b : Bool)
  | jnum (q : ℚ)
  | jstr (s : String)
  | jarr (elems : List Json)
  | jobj (entries : List (String × Json))

/-- A JSON object (Python `dict`): entries in insertion order, keys unique. -/
abbrev Obj := List (String × Json)

/-- Python `d[k]` / `k in d` on a dict: the value stored at key `k`, if any. -/
def lookupObj : Obj → String → Option Json
  | [], _ => none
  | (k', v) :: rest, k => if k' = k then some v else lookupObj rest k

/-- Python `d[k] = v` on a dict: replace the value at an existing key in
place (keeping its position), or append a new entry. -/
def setKey : Obj → String → Json → Obj
  | [], k, v => [(k, v)]
  | (k', v') :: rest, k, v =>
      if k' = k then (k, v) :: rest else (k', v') :: setKey rest k v

/-- Python `d[k] = v` on a JSON value known to be an object; other JSON
values are returned unchanged (the pipeline only applies this to objects). -/
def setKeyJson : Json → String → Json → Json
  | .jobj entries, k, v => .jobj (setKey entries k v)
  | j, _, _ => j

/-- Modelled from the spec: the prediction record type `PrinterPrediction`
is defined in `app/models.py`, which is not among the sources here. Per §3
it carries "a nested field-set of raw per-class detection values", so we
model it as a finite map from field names to numeric detection values. -/
structure PrinterPrediction where
  fields : List (String × ℚ)
  deriving DecidableEq

/-- Lookup in a numeric field-set (first occurrence, as in a Python dict). -/
def lookupQ : List (String × ℚ) → String → Option ℚ
  | [], _ => none
  | (k', v) :: rest, k => if k' = k then some v else lookupQ rest k

/-- Modelled from the spec: the constructor call
`PrinterPrediction(**raw_pred['fields'])` in the viewset accepts exactly a
mapping of field names to values and raises `TypeError` otherwise; we model
it as accepting exactly the JSON objects all of whose values are numbers. -/
def fieldEntryFromJson : String × Json → Option (String × ℚ)
  | (k, .jnum q) => some (k, q)
  | _ => none

def PrinterPrediction.fromJson : Json → Option PrinterPrediction
  | .jobj entries => (entries.mapM fieldEntryFromJson).map PrinterPrediction.mk
  | _ => none

/-- Modelled from the spec: the raw failure-detection signal of a field-set,
clamped to the nonnegative domain of detection scores. The `"failure"` field
carries the raw confidence of failure; absence signals no failure. -/
def PrinterPrediction.raw_signal (pred : PrinterPrediction) : ℚ :=
  max 0 ((lookupQ pred.fields "failure").getD 0)

/-- Modelled from the spec: `calc_normalized_p` is defined in
`app/models.py`, absent from the sources; §4.2 fixes only its interface and
invariants (pure, probability in `[0,1]`, exactly `0.0` at certain
no-failure, monotonically non-decreasing in sensitivity) and §9 leaves the
exact curve to the implementer. We model it as the clamped product of the
sensitivity and the raw signal. -/
def calc_normalized_p (sensitivity : ℚ) (pred : PrinterPrediction) : ℚ :=
  min 1 (max 0 (sensitivity * pred.raw_signal))

/-- The owning printer: only its `detective_sensitivity` is relevant here. -/
structure Printer where
  detective_sensitivity : ℚ
  deriving DecidableEq

/-- Modelled from the spec: the schema default read by
`Printer._meta.get_field('detective_sensitivity').get_default()` is declared
in `app/models.py`; the spec calls it "a well-defined system default". -/
def default_detective_sensitivity : ℚ := 1

/-- The print being queried: its prediction-timeline URL (nullable) and its
possibly-deleted owning printer. -/
structure Print where
  prediction_json_url : Option String
  printer : Option Printer
  deriving DecidableEq

/-- The client-supplied conditional-request validators, each independently
absent (`none`) or present with a string value. -/
structure ReqHeaders where
  ifModifiedSince : Option String
  ifNoneMatch : Option String
  deriving DecidableEq

/-- `{k: v for k, v in headers.items() if v is not None}`: keep exactly the
present values. -/
def filterPresent (headers : List (String × Option String)) :
    List (String × String) :=
  headers.filterMap fun kv => kv.2.map fun v => (kv.1, v)

/-- The headers attached to the upstream GET (viewsets.py lines 181-188). -/
def sentValidatorHeaders (req : ReqHeaders) : List (String × String) :=
  filterPresent
    [("If-Modified-Since", req.ifModifiedSince),
     ("If-None-Match", req.ifNoneMatch)]

/-- Python truthiness of `p.prediction_json_url` (`if not p.prediction_json_url`):
falsy when null and also when the empty string. -/
def urlFalsy : Option String → Bool
  | none => true
  | some s => s = ""

/-- `PREDICTION_FETCH_TIMEOUT = 20` (viewsets.py line 24). -/
def PREDICTION_FETCH_TIMEOUT : Nat := 20

/-- The outcome of the single upstream `requests.get`: either it timed out
(after `PREDICTION_FETCH_TIMEOUT` time units), or it produced a response
with a status code, optional `Last-Modified`/`Etag` headers, and a body
(the parsed JSON array; ignored by the code unless the fresh path runs). -/
inductive Upstream where
  | timeout
  | resp (status : Nat) (lastModified etag : Option String) (body : List Obj)

/-- The exceptions that can escape `prediction_json`: the `requests`
timeout, the `HTTPError` of `raise_for_status`, and the `TypeError` of
`PrinterPrediction(**raw_pred['fields'])` on a malformed field-set. -/
inductive PipelineError where
  | timeoutErr
  | httpError (status : Nat)
  | typeError
  deriving DecidableEq

/-- The response returned to the HTTP client: status, headers, and either
an empty body (`none`, from `Response(None, ...)`) or a JSON array. -/
structure ClientResponse where
  status : Nat
  headers : List (String × String)
  body : Option (List Obj)

/-- What one invocation of `prediction_json` did: the result (a client
response, or a propagated error), how many upstream GETs it performed, and
every invocation of the calibration engine with its arguments. -/
structure Outcome where
  result : Except PipelineError ClientResponse
  networkCalls : Nat
  engineCalls : List (ℚ × PrinterPrediction)

/-- The sensitivity resolved at lines 206-210: the owning printer's current
`detective_sensitivity` when the print still has a printer, otherwise the
schema default. -/
def resolvedSensitivity (p : Print) : ℚ :=
  match p.printer with
  | some pr => pr.detective_sensitivity
  | none => default_detective_sensitivity

/-- `r.raise_for_status()` raises `HTTPError` exactly for 4xx/5xx codes. -/
abbrev raiseForStatus (status : Nat) : Prop :=
  400 ≤ status ∧ status < 600

/-- The loop body at lines 211-219 for one raw record: if the `'fields'`
key is absent, synthesize `{'normalized_p': 0.0}`; otherwise construct the
prediction (which may raise `TypeError`) and write `normalized_p` into the
existing field-set. Returns the updated record together with the engine
invocations made for it. -/
def processRecord (sens : ℚ) (raw : Obj) :
    Except PipelineError (Obj × List (ℚ × PrinterPrediction)) :=
  match lookupObj raw "fields" with
  | none =>
      .ok (setKey raw "fields" (.jobj [("normalized_p", .jnum 0)]), [])
  | some fv =>
      match PrinterPrediction.fromJson fv with
      | none => .error .typeError
      | some pred =>
          .ok (setKey raw "fields"
                 (setKeyJson fv "normalized_p"
                   (.jnum (calc_normalized_p sens pred))),
               [(sens, pred)])

/-- The whole `for raw_pred in data:` loop: process records in order,
propagating the first error. -/
def processRecords (sens : ℚ) :
    List Obj → Except PipelineError (List Obj × List (ℚ × PrinterPrediction))
  | [] => .ok ([], [])
  | raw :: rest =>
      match processRecord sens raw with
      | .error e => .error e
      | .ok (r, calls) =>
          match processRecords sens rest with
          | .error e => .error e
          | .ok (rs, cs) => .ok (r :: rs, calls ++ cs)

/-- `PrintViewSet.prediction_json` (viewsets.py lines 175-225), with the
single upstream fetch outcome supplied as a parameter and the network and
engine activity recorded in the result. -/
def prediction_json (p : Print) (req : ReqHeaders) (up : Upstream) :
    Outcome :=
  if urlFalsy p.prediction_json_url then
    { result := .ok ⟨200, [], some []⟩, networkCalls := 0, engineCalls := [] }
  else
    match up with
    | .timeout =>
        { result := .error .timeoutErr, networkCalls := 1, engineCalls := [] }
    | .resp status lm et body =>
        if raiseForStatus status then
          { result := .error (.httpError status),
            networkCalls := 1, engineCalls := [] }
        else if status = 304 then
          { result := .ok ⟨304,
              filterPresent [("Last-Modified", lm), ("Etag", et)], none⟩,
            networkCalls := 1, engineCalls := [] }
        else
          match processRecords (resolvedSensitivity p) body with
          | .error e =>
              { result := .error e, networkCalls := 1, engineCalls := [] }
          | .ok (out, calls) =>
              { result := .ok ⟨200,
                  filterPresent [("Last-Modified", lm), ("Etag", et)],
                  some out⟩,
                networkCalls := 1, engineCalls := calls }

/-! ## Derived record-level notions used in the specifications -/

/-- A raw record is well formed when it either lacks the `'fields'` key or
its field-set is accepted by the prediction constructor (the spec's §3
invariant on `RawPredictionFrame`). -/
def recordOk (r : Obj) : Bool :=
  match lookupObj r "fields" with
  | none => true
  | some fv => (PrinterPrediction.fromJson fv).isSome

/-- A raw record has a present `'fields'` key whose value the prediction
constructor rejects (so `PrinterPrediction(**raw_pred['fields'])` raises). -/
def badFields (r : Obj) : Bool :=
  match lookupObj r "fields" with
  | none => false
  | some fv => (PrinterPrediction.fromJson fv).isNone

/-- The value a well-formed record is rewritten to by the loop body: the
fallback field-set when `'fields'` is missing, otherwise the field-set with
`normalized_p` written into it. -/
def transformRecord (sens : ℚ) (r : Obj) : Obj :=
  match lookupObj r "fields" with
  | none => setKey r "fields" (.jobj [("normalized_p", .jnum 0)])
  | some fv =>
      match PrinterPrediction.fromJson fv with
      | none => r
      | some pred =>
          setKey r "fields"
            (setKeyJson fv "normalized_p"
              (.jnum (calc_normalized_p sens pred)))

/-- The calibration-engine invocations the loop body makes for one record. -/
def recordCalls (sens : ℚ) (r : Obj) : List (ℚ × PrinterPrediction) :=
  match lookupObj r "fields" with
  | none => []
  | some fv =>
      match PrinterPrediction.fromJson fv with
      | none => []
      | some pred => [(sens, pred)]

/-- All engine invocations over a body, in order. -/
def collectCalls (sens : ℚ) : List Obj → List (ℚ × PrinterPrediction)
  | [] => []
  | r :: rest => recordCalls sens r ++ collectCalls sens rest

/-- The record's `'fields'` entry exists, is an object, and contains the
key `normalized_p`. -/
def hasNormalizedP (r : Obj) : Bool :=
  match lookupObj r "fields" with
  | some (.jobj fs) => (lookupObj fs "normalized_p").isSome
  | _ => false

/-! ## Record-level lemmas -/

theorem lookupObj_setKey_self (r : Obj) (k : String) (v : Json) :
    lookupObj (setKey r k v) k = some v := by
  induction r with
  | nil => simp [setKey, lookupObj]
  | cons hd tl ih =>
      obtain ⟨k', v'⟩ := hd
      by_cases h : k' = k
      · simp [setKey, h, lookupObj]
      · simp [setKey, h, lookupObj, ih]

theorem fromJson_jobj {fv : Json} {pred : PrinterPrediction}
    (h : PrinterPrediction.fromJson fv = some pred) :
    ∃ entries, fv = .jobj entries := by
  cases fv <;> simp [PrinterPrediction.fromJson] at h ⊢

theorem recordOk_eq_not_badFields (r : Obj) :
    recordOk r = !badFields r := by
  unfold recordOk badFields
  cases hf : lookupObj r "fields" with
  | none => rfl
  | some fv => cases hp : PrinterPrediction.fromJson fv <;> simp [hp]

theorem processRecord_eq_of_recordOk (sens : ℚ) (r : Obj)
    (h : recordOk r = true) :
    processRecord sens r = .ok (transformRecord sens r, recordCalls sens r) := by
  cases hf : lookupObj r "fields" with
  | none => simp [processRecord, transformRecord, recordCalls, hf]
  | some fv =>
      simp only [recordOk, hf] at h
      cases hp : PrinterPrediction.fromJson fv with
      | none => simp [hp] at h
      | some pred => simp [processRecord, transformRecord, recordCalls, hf, hp]

theorem processRecord_error_of_badFields (sens : ℚ) (r : Obj)
    (h : badFields r = true) :
    processRecord sens r = .error .typeError := by
  cases hf : lookupObj r "fields" with
  | none => simp [badFields, hf] at h
  | some fv =>
      simp only [badFields, hf] at h
      cases hp : PrinterPrediction.fromJson fv with
      | none => simp [processRecord, hf, hp]
      | some pred => simp [hp] at h

theorem hasNormalizedP_transformRecord (sens : ℚ) (r : Obj)
    (h : recordOk r = true) :
    hasNormalizedP (transformRecord sens r) = true := by
  cases hf : lookupObj r "fields" with
  | none =>
      simp only [transformRecord, hf]
      simp [hasNormalizedP, lookupObj_setKey_self, lookupObj]
  | some fv =>
      simp only [recordOk, hf] at h
      cases hp : PrinterPrediction.fromJson fv with
      | none => simp [hp] at h
      | some pred =>
          obtain ⟨entries, rfl⟩ := fromJson_jobj hp
          simp only [transformRecord, hf, hp, setKeyJson]
          simp [hasNormalizedP, lookupObj_setKey_self]

/-! ## Pipeline-level lemmas -/

theorem processRecords_eq_of_all_ok (sens : ℚ) (body : List Obj)
    (h : ∀ r ∈ body, recordOk r = true) :
    processRecords sens body =
      .ok (body.map (transformRecord sens), collectCalls sens body) := by
  induction body with
  | nil => rfl
  | cons hd tl ih =>
      have hhd : recordOk hd = true := h hd (by simp)
      have htl : ∀ r ∈ tl, recordOk r = true := fun r hr => h r (by simp [hr])
      simp [processRecords, processRecord_eq_of_recordOk sens hd hhd, ih htl,
        collectCalls]

theorem processRecords_error_of_bad (sens : ℚ) (body : List Obj)
    (h : ∃ r ∈ body, badFields r = true) :
    processRecords sens body = .error .typeError := by
  induction body with
  | nil => simp at h
  | cons hd tl ih =>
      by_cases hhd : badFields hd = true
      · simp [processRecords, processRecord_error_of_badFields sens hd hhd]
      · have hok : recordOk hd = true := by
          rw [recordOk_eq_not_badFields]
          simp [Bool.eq_false_iff.mpr hhd]
        have htl : ∃ r ∈ tl, badFields r = true := by
          obtain ⟨r, hr, hbad⟩ := h
          rcases List.mem_cons.mp hr with rfl | hmem
          · exact absurd hbad hhd
          · exact ⟨r, hmem, hbad⟩
        simp [processRecords, processRecord_eq_of_recordOk sens hd hok, ih htl]

theorem processRecord_calls_sens (sens : ℚ) (r : Obj)
    (out : Obj) (calls : List (ℚ × PrinterPrediction))
    (h : processRecord sens r = .ok (out, calls)) :
    ∀ c ∈ calls, c.1 = sens := by
  intro c hc
  cases hf : lookupObj r "fields" with
  | none =>
      simp only [processRecord, hf] at h
      obtain ⟨-, rfl⟩ := h
      simp at hc
  | some fv =>
      cases hp : PrinterPrediction.fromJson fv with
      | none => simp [processRecord, hf, hp] at h
      | some pred =>
          simp only [processRecord, hf, hp] at h
          obtain ⟨-, rfl⟩ := h
          simp at hc
          rw [hc]

theorem processRecords_calls_sens (sens : ℚ) (body : List Obj) :
    ∀ (out : List Obj) (calls : List (ℚ × PrinterPrediction)),
      processRecords sens body = .ok (out, calls) → ∀ c ∈ calls, c.1 = sens := by
  induction body with
  | nil =>
      intro out calls h c hc
      simp only [processRecords] at h
      obtain ⟨-, rfl⟩ := h
      simp at hc
  | cons hd tl ih =>
      intro out calls h c hc
      simp only [processRecords] at h
      cases h1 : processRecord sens hd with
      | error e => rw [h1] at h; simp at h
      | ok pr =>
          obtain ⟨r, rcalls⟩ := pr
          rw [h1] at h
          cases h2 : processRecords sens tl with
          | error e => rw [h2] at h; simp at h
          | ok pr2 =>
              obtain ⟨rs, cs⟩ := pr2
              rw [h2] at h
              simp only [Except.ok.injEq, Prod.mk.injEq] at h
              obtain ⟨-, rfl⟩ := h
              rcases List.mem_append.mp hc with hc1 | hc2
              · exact processRecord_calls_sens sens hd r rcalls h1 c hc1
              · exact ih rs cs h2 c hc2

theorem mem_filterPresent_pair (k1 k2 : String) (o1 o2 : Option String)
    (k v : String) :
    (k, v) ∈ filterPresent [(k1, o1), (k2, o2)] ↔
      ((k = k1 ∧ o1 = some v) ∨ (k = k2 ∧ o2 = some v)) := by
  cases o1 <;> cases o2 <;>
    simp [filterPresent, Prod.ext_iff, and_comm, eq_comm] <;>
    aesop

theorem prediction_json_fresh (p : Print) (req : ReqHeaders) (status : Nat)
    (lm et : Option String) (body : List Obj)
    (hurl : urlFalsy p.prediction_json_url = false)
    (hst : status < 400) (h304 : status ≠ 304) :
    prediction_json p req (.resp status lm et body) =
      match processRecords (resolvedSensitivity p) body with
      | .error e => ⟨.error e, 1, []⟩
      | .ok (out, calls) =>
          ⟨.ok ⟨200, filterPresent [("Last-Modified", lm), ("Etag", et)],
              some out⟩, 1, calls⟩ := by
  unfold prediction_json
  rw [hurl]
  simp only [Bool.false_eq_true, if_false]
  rw [if_neg (by omega : ¬(400 ≤ status ∧ status < 600)), if_neg h304]

/-! ## The claims -/

/-- C1: on an upstream 200 whose body is a JSON array of N frame records —
each record either well formed or lacking its field-set, per the §3 record
invariant — the response body is exactly the per-record rewrite mapped over
the upstream body in its original order (so no frame is reordered,
deduplicated, or dropped, and the length is N), and every returned record's
fields contain a `normalized_p` key. -/
theorem spec_C1 (p : Print) (req : ReqHeaders) (lm et : Option String)
    (body : List Obj)
    (hurl : urlFalsy p.prediction_json_url = false)
    (hrec : ∀ r ∈ body, recordOk r = true) :
    (prediction_json p req (.resp 200 lm et body)).result =
      .ok ⟨200, filterPresent [("Last-Modified", lm), ("Etag", et)],
        some (body.map (transformRecord (resolvedSensitivity p)))⟩ ∧
    (body.map (transformRecord (resolvedSensitivity p))).length = body.length ∧
    ∀ r ∈ body.map (transformRecord (resolvedSensitivity p)),
      hasNormalizedP r = true := by
  refine ⟨?_, by simp, ?_⟩
  · rw [prediction_json_fresh p req 200 lm et body hurl (by omega) (by omega),
        processRecords_eq_of_all_ok _ body hrec]
  · intro r hr
    obtain ⟨r0, hr0, rfl⟩ := List.mem_map.mp hr
    exact hasNormalizedP_transformRecord _ r0 (hrec r0 hr0)

/-- Concrete instantiation of `spec_C1` on a two-record body (one well-formed
record, one record with a missing field-set). -/
theorem spec_C1_witness :
    (prediction_json ⟨some "u", none⟩ ⟨none, none⟩
        (.resp 200 (some "lm") none
          [[("fields", Json.jobj [("failure", Json.jnum 1)])], []])).result =
      .ok ⟨200,
        filterPresent [("Last-Modified", some "lm"), ("Etag", none)],
        some ([[("fields", Json.jobj [("failure", Json.jnum 1)])], []].map
          (transformRecord (resolvedSensitivity ⟨some "u", none⟩)))⟩ ∧
    hasNormalizedP (transformRecord (resolvedSensitivity ⟨some "u", none⟩)
        [("fields", Json.jobj [("failure", Json.jnum 1)])]) = true := by
  have h := spec_C1 ⟨some "u", none⟩ ⟨none, none⟩ (some "lm") none
    [[("fields", Json.jobj [("failure", Json.jnum 1)])], []] rfl (by decide)
  exact ⟨h.1, h.2.2 _ (List.mem_map_of_mem _ (by simp))⟩

/-- C2 counterexample: the claim that the upstream GET "never sends an empty
or placeholder validator value" fails; a client-supplied `If-None-Match`
header whose value is the empty string is present (not `None` in
`request.headers.get`), survives the `v is not None` filter, and is attached
upstream with its empty value. -/
theorem spec_C2_counterexample :
    sentValidatorHeaders ⟨none, some ""⟩ = [("If-None-Match", "")] := rfl

/-- C2 (amended): the upstream GET attaches exactly the client-supplied
validators that are present — absent validators are omitted entirely — and
each present value is passed through unchanged (so an empty client-supplied
value is forwarded as-is). -/
theorem spec_C2_amended (req : ReqHeaders) (k v : String) :
    (k, v) ∈ sentValidatorHeaders req ↔
      ((k = "If-Modified-Since" ∧ req.ifModifiedSince = some v) ∨
       (k = "If-None-Match" ∧ req.ifNoneMatch = some v)) :=
  mem_filterPresent_pair _ _ _ _ k v

/-- C3: when the upstream fetch returns 304, the client response has status
304 with an empty body, and the calibration engine is never invoked — the
upstream body, whatever it contained, is never processed. -/
theorem spec_C3 (p : Print) (req : ReqHeaders) (lm et : Option String)
    (body : List Obj)
    (hurl : urlFalsy p.prediction_json_url = false) :
    (prediction_json p req (.resp 304 lm et body)).result =
      .ok ⟨304, filterPresent [("Last-Modified", lm), ("Etag", et)], none⟩ ∧
    (prediction_json p req (.resp 304 lm et body)).engineCalls = [] := by
  have h : prediction_json p req (.resp 304 lm et body) =
      { result := .ok ⟨304,
          filterPresent [("Last-Modified", lm), ("Etag", et)], none⟩,
        networkCalls := 1, engineCalls := [] } := by
    unfold prediction_json
    rw [hurl]
    simp only [Bool.false_eq_true, if_false]
    rw [if_neg (by omega : ¬(400 ≤ 304 ∧ 304 < 600))]
    simp
  rw [h]
  exact ⟨rfl, rfl⟩

/-- Concrete instantiation of `spec_C3` (upstream 304 carrying an entity
tag, matching the spec's end-to-end scenario C). -/
theorem spec_C3_witness :
    (prediction_json ⟨some "u", none⟩ ⟨none, some "abc"⟩
        (.resp 304 none (some "abc") [])).result =
      .ok ⟨304, filterPresent [("Last-Modified", none), ("Etag", some "abc")],
        none⟩ ∧
    (prediction_json ⟨some "u", none⟩ ⟨none, some "abc"⟩
        (.resp 304 none (some "abc") [])).engineCalls = [] :=
  spec_C3 ⟨some "u", none⟩ ⟨none, some "abc"⟩ none (some "abc") [] rfl

/-- C4: a raw record lacking the `'fields'` key is never given to the
calibration engine; the loop synthesizes the field-set
`{'normalized_p': 0.0}` for it, and the record still appears, at its
original position, in the response body with that safe default rather than
raising an error or being dropped. -/
theorem spec_C4 :
    (∀ (sens : ℚ) (r : Obj), lookupObj r "fields" = none →
       processRecord sens r =
         .ok (setKey r "fields" (.jobj [("normalized_p", .jnum 0)]), [])) ∧
    (∀ (p : Print) (req : ReqHeaders) (lm et : Option String)
       (body : List Obj) (i : Nat) (r : Obj),
       urlFalsy p.prediction_json_url = false →
       (∀ x ∈ body, recordOk x = true) →
       body[i]? = some r → lookupObj r "fields" = none →
       (prediction_json p req (.resp 200 lm et body)).result =
         .ok ⟨200, filterPresent [("Last-Modified", lm), ("Etag", et)],
           some (body.map (transformRecord (resolvedSensitivity p)))⟩ ∧
       (body.map (transformRecord (resolvedSensitivity p)))[i]? =
         some (setKey r "fields" (.jobj [("normalized_p", .jnum 0)]))) := by
  constructor
  · intro sens r hf
    simp [processRecord, hf]
  · intro p req lm et body i r hurl hrec hi hf
    refine ⟨(spec_C1 p req lm et body hurl hrec).1, ?_⟩
    rw [List.getElem?_map, hi]
    simp [transformRecord, hf]

/-- Concrete instantiation of `spec_C4`: an empty record (no `'fields'`
key) gets the fallback field-set, and on a one-record body it round-trips
into position 0 of the response. -/
theorem spec_C4_witness :
    (processRecord 1 [("x", Json.null)] =
      .ok (setKey [("x", Json.null)] "fields"
        (.jobj [("normalized_p", .jnum 0)]), [])) ∧
    ([([] : Obj)].map (transformRecord (resolvedSensitivity ⟨some "u", none⟩)))[0]? =
      some (setKey [] "fields" (.jobj [("normalized_p", .jnum 0)])) := by
  refine ⟨spec_C4.1 1 [("x", Json.null)] rfl, ?_⟩
  exact (spec_C4.2 ⟨some "u", none⟩ ⟨none, none⟩ none none [[]] 0 []
    rfl (by decide) rfl rfl).2

/-- C5: a print whose prediction-timeline URL is null yields the empty
sequence immediately — a 200 response whose body is the empty array — with
zero network calls and no engine invocations. -/
theorem spec_C5 (p : Print) (req : ReqHeaders) (up : Upstream)
    (hurl : p.prediction_json_url = none) :
    prediction_json p req up =
      { result := .ok ⟨200, [], some []⟩,
        networkCalls := 0, engineCalls := [] } := by
  unfold prediction_json
  rw [hurl]
  rfl

/-- Concrete instantiation of `spec_C5`. -/
theorem spec_C5_witness :
    prediction_json ⟨none, none⟩ ⟨none, none⟩ .timeout =
      { result := .ok ⟨200, [], some []⟩,
        networkCalls := 0, engineCalls := [] } :=
  spec_C5 ⟨none, none⟩ ⟨none, none⟩ .timeout rfl

/-- C6 counterexample: the claim that any upstream status that is neither
2xx nor 304 aborts the request fails. `raise_for_status` raises only for
4xx/5xx, so an upstream 300 — neither 2xx nor 304 — is processed as fresh
data and answered with a 200 response instead of a propagated error. -/
theorem spec_C6_counterexample :
    (prediction_json ⟨some "u", none⟩ ⟨none, none⟩
        (.resp 300 none none [])).result = .ok ⟨200, [], some []⟩ ∧
    ¬(200 ≤ 300 ∧ 300 ≤ 299) ∧ 300 ≠ 304 :=
  ⟨rfl, by omega⟩

/-- C6 (amended): the upstream GET is made with the fixed 20-time-unit
timeout; an upstream timeout, or any upstream 4xx/5xx status (400 ≤ status
< 600), makes the whole request fail with the propagated error — the error
result carries no body at all, so either the full normalized sequence is
returned or none of it — and nothing in `prediction_json` retries or
recovers it. Non-2xx statuses below 400 other than 304 are instead
processed as fresh data. -/
theorem spec_C6_amended (p : Print) (req : ReqHeaders)
    (hurl : urlFalsy p.prediction_json_url = false) :
    PREDICTION_FETCH_TIMEOUT = 20 ∧
    (prediction_json p req .timeout).result = .error .timeoutErr ∧
    (∀ (status : Nat) (lm et : Option String) (body : List Obj),
      400 ≤ status → status < 600 →
      (prediction_json p req (.resp status lm et body)).result =
        .error (.httpError status)) := by
  refine ⟨rfl, ?_, ?_⟩
  · unfold prediction_json
    rw [hurl]
    rfl
  · intro status lm et body h4 h6
    unfold prediction_json
    rw [hurl]
    simp only [Bool.false_eq_true, if_false]
    rw [if_pos ⟨h4, h6⟩]

/-- Concrete instantiation of `spec_C6_amended`: a timeout and an upstream
500 both propagate as errors. -/
theorem spec_C6_amended_witness :
    (prediction_json ⟨some "u", none⟩ ⟨none, none⟩ .timeout).result =
      .error .timeoutErr ∧
    (prediction_json ⟨some "u", none⟩ ⟨none, none⟩
        (.resp 500 none none [])).result = .error (.httpError 500) :=
  ⟨(spec_C6_amended ⟨some "u", none⟩ ⟨none, none⟩ rfl).2.1,
   (spec_C6_amended ⟨some "u", none⟩ ⟨none, none⟩ rfl).2.2 500 none none []
     (by omega) (by omega)⟩

/-- C7: calibration monotonicity — for sensitivities `s1 < s2` and the same
raw field-set, the normalized probability does not decrease. -/
theorem spec_C7 (s1 s2 : ℚ) (pred : PrinterPrediction) (h : s1 < s2) :
    calc_normalized_p s1 pred ≤ calc_normalized_p s2 pred := by
  have hr : 0 ≤ pred.raw_signal :=
    le_max_left 0 ((lookupQ pred.fields "failure").getD 0)
  have hm : s1 * pred.raw_signal ≤ s2 * pred.raw_signal :=
    mul_le_mul_of_nonneg_right h.le hr
  exact min_le_min le_rfl (max_le_max le_rfl hm)

/-- Concrete instantiation of `spec_C7`. -/
theorem spec_C7_witness :
    calc_normalized_p 1 ⟨[("failure", 1/2)]⟩ ≤
      calc_normalized_p 2 ⟨[("failure", 1/2)]⟩ :=
  spec_C7 1 2 ⟨[("failure", 1/2)]⟩ (by norm_num)

/-- C8: every calibration-engine invocation performed for a request uses
the owning printer's current `detective_sensitivity` when the print has a
printer, and the system default when it has none. -/
theorem spec_C8 (p : Print) (req : ReqHeaders) (status : Nat)
    (lm et : Option String) (body : List Obj)
    (hurl : urlFalsy p.prediction_json_url = false)
    (hst : status < 400) (h304 : status ≠ 304) :
    ∀ c ∈ (prediction_json p req (.resp status lm et body)).engineCalls,
      c.1 = match p.printer with
            | some pr => pr.detective_sensitivity
            | none => default_detective_sensitivity := by
  intro c hc
  rw [prediction_json_fresh p req status lm et body hurl hst h304] at hc
  have hsens : c.1 = resolvedSensitivity p := by
    cases hpr : processRecords (resolvedSensitivity p) body with
    | error e => rw [hpr] at hc; simp at hc
    | ok pr =>
        obtain ⟨out, calls⟩ := pr
        rw [hpr] at hc
        exact processRecords_calls_sens _ body out calls hpr c hc
  rw [hsens]
  rfl

/-- Concrete instantiation of `spec_C8`: with a printer of sensitivity 3,
the single engine invocation on a one-record body uses sensitivity 3. -/
theorem spec_C8_witness :
    ((3 : ℚ), (⟨[("failure", 1)]⟩ : PrinterPrediction)).1 =
      match (Print.mk (some "u") (some ⟨3⟩)).printer with
      | some pr => pr.detective_sensitivity
      | none => default_detective_sensitivity :=
  spec_C8 ⟨some "u", some ⟨3⟩⟩ ⟨none, none⟩ 200 none none
    [[("fields", Json.jobj [("failure", Json.jnum 1)])]]
    rfl (by omega) (by omega)
    (3, ⟨[("failure", 1)]⟩) (by decide)

/-- C9: in every client response actually produced after an upstream fetch
(both the 304 and the fresh outcome), each of `Last-Modified` and `Etag`
appears among the response headers iff the upstream response supplied it,
with its value passed through unchanged. -/
theorem spec_C9 (p : Print) (req : ReqHeaders) (status : Nat)
    (lm et : Option String) (body : List Obj) (cr : ClientResponse)
    (hurl : urlFalsy p.prediction_json_url = false)
    (hok : (prediction_json p req (.resp status lm et body)).result = .ok cr) :
    ∀ k v, (k, v) ∈ cr.headers ↔
      ((k = "Last-Modified" ∧ lm = some v) ∨ (k = "Etag" ∧ et = some v)) := by
  intro k v
  have hhdrs : cr.headers =
      filterPresent [("Last-Modified", lm), ("Etag", et)] := by
    unfold prediction_json at hok
    rw [hurl] at hok
    simp only [Bool.false_eq_true, if_false] at hok
    by_cases h4 : 400 ≤ status ∧ status < 600
    · rw [if_pos h4] at hok; simp at hok
    · rw [if_neg h4] at hok
      by_cases h304 : status = 304
      · rw [if_pos h304] at hok
        simp only [Except.ok.injEq] at hok
        rw [← hok]
      · rw [if_neg h304] at hok
        cases hpr : processRecords (resolvedSensitivity p) body with
        | error e => rw [hpr] at hok; simp at hok
        | ok pr =>
            obtain ⟨out, calls⟩ := pr
            rw [hpr] at hok
            simp only [Except.ok.injEq] at hok
            rw [← hok]
  rw [hhdrs]
  exact mem_filterPresent_pair _ _ lm et k v

/-- Concrete instantiation of `spec_C9` on a 304 outcome carrying only an
entity tag: `Etag` is present with the upstream value, `Last-Modified` is
absent. -/
theorem spec_C9_witness :
    ("Etag", "abc") ∈
      (ClientResponse.mk 304 [("Etag", "abc")] none).headers ↔
      (("Etag" = "Last-Modified" ∧ (none : Option String) = some "abc") ∨
       ("Etag" = "Etag" ∧ (some "abc" : Option String) = some "abc")) :=
  spec_C9 ⟨some "u", none⟩ ⟨none, some "abc"⟩ 304 none (some "abc") []
    ⟨304, [("Etag", "abc")], none⟩ rfl rfl "Etag" "abc"

/-- C10: the 0.0 fallback is reserved for records whose `'fields'` key is
absent; a record whose `'fields'` value the prediction constructor rejects
makes its processing raise, and the whole request fail with the propagated
error instead of being recovered with the default. -/
theorem spec_C10 :
    (∀ (sens : ℚ) (r : Obj) (fv : Json), lookupObj r "fields" = some fv →
       PrinterPrediction.fromJson fv = none →
       processRecord sens r = .error .typeError) ∧
    (∀ (p : Print) (req : ReqHeaders) (status : Nat) (lm et : Option String)
       (body : List Obj),
       urlFalsy p.prediction_json_url = false → status < 400 → status ≠ 304 →
       (∃ r ∈ body, badFields r = true) →
       (prediction_json p req (.resp status lm et body)).result =
         .error .typeError) := by
  constructor
  · intro sens r fv hf hp
    exact processRecord_error_of_badFields sens r (by simp [badFields, hf, hp])
  · intro p req status lm et body hurl hst h304 hbad
    rw [prediction_json_fresh p req status lm et body hurl hst h304,
        processRecords_error_of_bad _ body hbad]

/-- Concrete instantiation of `spec_C10`: a record whose `'fields'` value
is a number (not a field-set) raises, and a body containing it makes the
whole request fail. -/
theorem spec_C10_witness :
    (processRecord 1 [("fields", Json.jnum 0)] = .error .typeError) ∧
    (prediction_json ⟨some "u", none⟩ ⟨none, none⟩
        (.resp 200 none none [[("fields", Json.jnum 0)]])).result =
      .error .typeError :=
  ⟨spec_C10.1 1 [("fields", Json.jnum 0)] (Json.jnum 0) rfl rfl,
   spec_C10.2 ⟨some "u", none⟩ ⟨none, none⟩ 200 none none
     [[("fields", Json.jnum 0)]] rfl (by omega) (by omega)
     ⟨[("fields", Json.jnum 0)], by simp, by decide⟩⟩

end SpaghettiDetective
